import Mathlib

/-!
Verification of the vega-auto-viz prompt-to-chart pipeline.

This file gives a shallow embedding, in Lean, of the pure computational
core of the repository: the query executor's row truncation and numeric
coercion (services/databaseService.js, controllers/aiChartController.js),
the SQL guard (validateQuery), the schema introspector's type
normalization and description heuristics (utils/databaseSchema.js), the
schema cache, the AI-reply structural validation (services/aiService.js)
and the chart-spec composer (services/chartService.js).  JavaScript
strings are modelled through their character lists; the regular
expressions of the source are modelled by explicit, executable matching
functions on character lists (ASCII character classes); JavaScript
truthiness of the relevant value shapes (strings, numbers, objects,
null/undefined) is modelled explicitly where the source branches on it.
-/

namespace VegaAutoViz

/-- Runtime values as they occur in driver result rows: strings, numbers
(numbers abstracted as integers, their arithmetic is irrelevant here),
booleans and null. -/
inductive JSValue where
  | vstr (s : String)
  | vnum (n : Int)
  | vbool (b : Bool)
  | vnull
deriving DecidableEq, Repr

/-- A result row is an ordered list of (column name, value) pairs, the
own enumerable properties of the JS row object. -/
abbrev Row := List (String × JSValue)

/-- The ASCII part of the JavaScript whitespace class used by the regex
escape backslash-s and by String.prototype.trim. -/
def isSpaceJS (c : Char) : Bool :=
  c = ' ' || c = '\t' || c = '\n' || c = '\r' || c = '\x0b' || c = '\x0c'

/-- Model of JavaScript String.prototype.trim (ASCII whitespace). -/
def jsTrim (s : String) : String :=
  ⟨((s.data.dropWhile isSpaceJS).reverse.dropWhile isSpaceJS).reverse⟩

/-- Model of JavaScript String.prototype.toLowerCase (ASCII). -/
def jsToLowerCase (s : String) : String := ⟨s.data.map Char.toLower⟩

/-- Model of JavaScript String.prototype.toUpperCase (ASCII). -/
def jsToUpperCase (s : String) : String := ⟨s.data.map Char.toUpper⟩

/-- Model of JavaScript String.prototype.startsWith. -/
def strStartsWith (s p : String) : Bool := p.data.isPrefixOf s.data

/-- Model of JavaScript String.prototype.endsWith. -/
def strEndsWith (s p : String) : Bool := p.data.isSuffixOf s.data

/-- First-occurrence substring replacement: model of JavaScript
String.prototype.replace with a plain-string pattern. -/
def replaceFirstAux (rep pat : List Char) : List Char → List Char
  | [] => if pat.isEmpty then rep else []
  | c :: cs =>
    if pat.isPrefixOf (c :: cs) then rep ++ (c :: cs).drop pat.length
    else c :: replaceFirstAux rep pat cs

/-- Model of JavaScript s.replace(pat, rep) for a string pattern. -/
def jsReplaceFirst (s pat rep : String) : String :=
  ⟨replaceFirstAux rep.data pat.data s.data⟩

/-- Substring test: model of JavaScript String.prototype.includes. -/
def containsSubstr (sub : List Char) : List Char → Bool
  | [] => sub.isEmpty
  | c :: cs => sub.isPrefixOf (c :: cs) || containsSubstr sub cs

/-- Model of JavaScript s.includes(sub). -/
def jsIncludes (s sub : String) : Bool := containsSubstr sub.data s.data

/-! ## Query Executor (services/databaseService.js, executeQuery)

The driver result list and the maxRows option are the inputs; the
try/catch and the timeout concern I/O faults and are outside the pure
slice.  The source checks `results.length > maxRows` and returns
`results.slice(0, maxRows)` in that case, the full list otherwise. -/

/-- Embedding of executeQuery's result handling: truncate the driver
result list to maxRows when it is longer, return it unchanged otherwise. -/
def executeQuery (results : List Row) (maxRows : Nat) : List Row :=
  if results.length > maxRows then results.take maxRows else results

/-! ## Numeric coercion (controllers/aiChartController.js, lines 72-82)

Immediately after executeQuery, generateChartFromPrompt maps every row
through a normalization that replaces each string value whose trimmed
form is non-empty and which JavaScript's Number() parses (the source
test is `typeof value === 'string' && value.trim() !== '' &&
!isNaN(value)`) by the parsed number.  The Number() primitive is kept
abstract as a parameter `numParse`, where `numParse s = some n` models
"Number(s) is the non-NaN number n". -/

/-- Coerce one value as the controller's normalization loop does. -/
def coerceValue (numParse : String → Option Int) (v : JSValue) : JSValue :=
  match v with
  | JSValue.vstr s =>
    if jsTrim s = "" then JSValue.vstr s
    else
      match numParse s with
      | some n => JSValue.vnum n
      | none => JSValue.vstr s
  | _ => v

/-- Normalize one row: coerce each column value. -/
def normalizeRow (numParse : String → Option Int) (r : Row) : Row :=
  r.map (fun kv => (kv.1, coerceValue numParse kv.2))

/-- Normalize the whole result set, as `data.map(row => ...)` does. -/
def normalizeRows (numParse : String → Option Int) (rows : List Row) : List Row :=
  rows.map (normalizeRow numParse)

/-! ## Type normalization (utils/databaseSchema.js, normalizeDataType) -/

/-- The fixed lookup table of normalizeDataType, in source order. -/
def typeMap : List (String × String) :=
  [ ("integer", "INTEGER"), ("int", "INTEGER"), ("smallint", "INTEGER"),
    ("bigint", "INTEGER"), ("serial", "INTEGER"), ("bigserial", "INTEGER"),
    ("numeric", "DECIMAL"), ("decimal", "DECIMAL"), ("real", "DECIMAL"),
    ("double precision", "DECIMAL"), ("float", "DECIMAL"), ("money", "DECIMAL"),
    ("character varying", "STRING"), ("varchar", "STRING"),
    ("character", "STRING"), ("char", "STRING"), ("text", "TEXT"),
    ("timestamp without time zone", "TIMESTAMP"),
    ("timestamp with time zone", "TIMESTAMP"), ("timestamp", "TIMESTAMP"),
    ("datetime", "TIMESTAMP"), ("date", "DATE"), ("time", "TIME"),
    ("boolean", "BOOLEAN"), ("bool", "BOOLEAN"),
    ("json", "JSON"), ("jsonb", "JSON"),
    ("array", "ARRAY") ]

/-- Association-list lookup, modelling the JS object property access. -/
def assocLookup : List (String × String) → String → Option String
  | [], _ => none
  | (k, v) :: rest, key => if key = k then some v else assocLookup rest key

/-- Embedding of normalizeDataType: look the lower-cased raw type up in
the fixed table, fall back to the upper-cased input (the source's
`typeMap[lowerType] || dataType.toUpperCase()`; every mapped value is a
non-empty, hence truthy, string, so the Option model is exact). -/
def normalizeDataType (dataType : String) : String :=
  match assocLookup typeMap (jsToLowerCase dataType) with
  | some v => v
  | none => jsToUpperCase dataType

/-! ## Chart specification model (services/chartService.js)

The JSON chart specification object, restricted to the fields the
repository's code reads or writes.  `mark` may be a string or an object
(the code manipulates only the object's type and tooltip members);
`width` may be a number or the string 'container'. -/

/-- A Vega-Lite mark: shorthand string form or object form. -/
inductive MarkVal where
  | mstr (s : String)
  | mobj (type : String) (tooltip : Option Bool)
deriving DecidableEq, Repr

/-- The inline data slot: `data: { values: [...] }`. -/
structure DataField where
  values : List Row
deriving DecidableEq, Repr

/-- Width: a number or the string 'container'. -/
inductive WidthVal where
  | num (n : Int)
  | container
deriving DecidableEq, Repr

/-- The only autosize object the code writes: type fit, contains padding. -/
inductive Autosize where
  | fitPadding
deriving DecidableEq, Repr

/-- The style-configuration blocks getThemeConfig can return: the three
shipped themes, or the empty object for an unknown name. -/
inductive ThemeConfig where
  | dark
  | minimal
  | professional
  | empty
deriving DecidableEq, Repr

/-- A transform-array entry: the sampling entry the optimizer appends,
or any other transform carried by the input spec. -/
inductive TransformEntry where
  | sample (n : Int)
  | other (s : String)
deriving DecidableEq, Repr

/-- Chart specification, with an Option per field to model JSON field
absence (undefined). -/
structure VegaSpec where
  schemaUrl : Option String := none
  mark : Option MarkVal := none
  data : Option DataField := none
  encoding : Option Unit := none
  width : Option WidthVal := none
  autosize : Option Autosize := none
  height : Option Int := none
  config : Option ThemeConfig := none
  transform : Option (List TransformEntry) := none
  title : Option String := none
deriving DecidableEq, Repr

/-- Options of enhanceVegaSpec with the source's defaults. -/
structure ChartOptions where
  theme : String := "default"
  responsive : Bool := false
  tooltip : Bool := true
deriving DecidableEq, Repr

/-- JavaScript truthiness of the mark slot: absent and the empty string
are falsy, every object is truthy. -/
def markTruthy : Option MarkVal → Bool
  | none => false
  | some (MarkVal.mstr s) => !(s = "")
  | some (MarkVal.mobj _ _) => true

/-- JavaScript truthiness of the width slot: absent and 0 are falsy. -/
def widthTruthy : Option WidthVal → Bool
  | none => false
  | some (WidthVal.num n) => !(n = 0)
  | some WidthVal.container => true

/-- JavaScript truthiness of the height slot: absent and 0 are falsy. -/
def heightTruthy : Option Int → Bool
  | none => false
  | some n => !(n = 0)

/-- Normalize a mark to object form carrying tooltip true, as the
tooltip branch of enhanceVegaSpec does. -/
def setMarkTooltipTrue : MarkVal → MarkVal
  | MarkVal.mstr s => MarkVal.mobj s (some true)
  | MarkVal.mobj t _ => MarkVal.mobj t (some true)

/-- Embedding of getThemeConfig: the fixed theme table, empty object for
unknown names. -/
def getThemeConfig (theme : String) : ThemeConfig :=
  if theme = "dark" then ThemeConfig.dark
  else if theme = "minimal" then ThemeConfig.minimal
  else if theme = "professional" then ThemeConfig.professional
  else ThemeConfig.empty

/-- Embedding of enhanceVegaSpec: clone the input (the embedding is
pure, so the deep copy is implicit), inject the data, apply sizing
defaults (responsive: container width and fit autosizing; otherwise
width falls back to 700 when falsy and height always falls back to 400
when falsy), force tooltip-on onto a truthy mark when the tooltip option
is set, and overlay the theme configuration when a non-default theme is
requested. -/
def enhanceVegaSpec (vegaSpec : VegaSpec) (data : List Row)
    (options : ChartOptions) : VegaSpec :=
  let e1 := { vegaSpec with data := some ⟨data⟩ }
  let e2 :=
    if options.responsive then
      { e1 with width := some WidthVal.container, autosize := some Autosize.fitPadding }
    else
      { e1 with width := if widthTruthy e1.width then e1.width else some (WidthVal.num 700) }
  let e3 := { e2 with height := if heightTruthy e2.height then e2.height else some 400 }
  let e4 :=
    if options.tooltip && markTruthy e3.mark then
      { e3 with mark := e3.mark.map setMarkTooltipTrue }
    else e3
  if !(options.theme = "default") then
    { e4 with config := some (getThemeConfig options.theme) }
  else e4

/-- Embedding of optimizeVegaSpec: above 1000 data points, disable the
tooltip on an object-form mark and append a sample-1000 transform; at or
below the threshold return the spec unchanged. -/
def optimizeVegaSpec (vegaSpec : VegaSpec) (dataSize : Nat) : VegaSpec :=
  if dataSize > 1000 then
    let o :=
      match vegaSpec.mark with
      | some (MarkVal.mobj t _) => { vegaSpec with mark := some (MarkVal.mobj t (some false)) }
      | _ => vegaSpec
    { o with transform := some (o.transform.getD [] ++ [TransformEntry.sample 1000]) }
  else vegaSpec

/-! ## Pipeline success path (controllers/aiChartController.js,
generateChartFromPrompt, lines 65-158)

The slice after the SQL guard has admitted the generated query: execute
(modelled by the driver result list plus maxRows), normalize numeric
strings, and either return the fixed placeholder response when zero rows
came back, or enhance the AI spec with the normalized rows.  The
response `data` field carries the unnormalized rows, as in the source. -/

/-- Response shape of the controller's success path. -/
structure ChartResponse where
  success : Bool
  dataCount : Nat
  data : List Row
  vegaSpec : VegaSpec
  message : Option String
deriving DecidableEq, Repr

/-- The fixed placeholder spec emitted for a zero-row result. -/
def emptyResultSpec : VegaSpec :=
  { schemaUrl := some "https://vega.github.io/schema/vega-lite/v5.json"
    mark := some (MarkVal.mstr "text")
    data := some ⟨[]⟩
    encoding := some ()
    title := some "No data available for this query" }

/-- Embedding of the controller's success path from query execution to
the HTTP response: the `numParse` parameter abstracts JavaScript's
Number() as in `coerceValue`. -/
def generateChartFromPrompt (numParse : String → Option Int)
    (aiSpec : VegaSpec) (driverRows : List Row) (maxRows : Nat)
    (chartOptions : ChartOptions) : ChartResponse :=
  let data := executeQuery driverRows maxRows
  let normalizedData := normalizeRows numParse data
  if data.length = 0 then
    { success := true, dataCount := 0, data := [], vegaSpec := emptyResultSpec,
      message := some "Query executed successfully but returned no data." }
  else
    { success := true, dataCount := data.length, data := data,
      vegaSpec := enhanceVegaSpec aiSpec normalizedData chartOptions,
      message := none }

/-! ## SQL Guard (services/databaseService.js, validateQuery)

The source tests six denylist regexes with `pattern.test(sqlQuery)`,
checks `/^\s*SELECT/i`, and extracts table identifiers with the global
regex `/FROM\s+(\w+)|JOIN\s+(\w+)/gi`.  The matchers below model these
regexes exactly on ASCII text: case-insensitive literals, backslash-s as
`isSpaceJS`, backslash-w as `[A-Za-z0-9_]`, the dot as any character
except a line terminator.  Greedy quantifier semantics coincide with the
maximal-munch implementations here because in every pattern the token
after a quantifier cannot begin inside the quantified class. -/

/-- The JavaScript word class backslash-w: ASCII letters, digits, underscore. -/
def isWordJS (c : Char) : Bool := c.isAlphanum || c = '_'

/-- Case-insensitive literal match at the head of the text; returns the
rest of the text on success. -/
def matchLitCI : List Char → List Char → Option (List Char)
  | [], s => some s
  | _ :: _, [] => none
  | p :: ps, c :: cs => if p.toLower = c.toLower then matchLitCI ps cs else none

/-- Match backslash-s-plus at the head of the text (one or more
whitespace characters), consuming the maximal run. -/
def spacesPlus : List Char → Option (List Char)
  | [] => none
  | c :: cs => if isSpaceJS c then some (cs.dropWhile isSpaceJS) else none

/-- Match backslash-w-plus at the head of the text, returning the
maximal captured word and the rest. -/
def wordPlus : List Char → Option (List Char × List Char)
  | [] => none
  | c :: cs =>
    if isWordJS c then some ((c :: cs).takeWhile isWordJS, (c :: cs).dropWhile isWordJS)
    else none

/-- Match dot-star followed by a case-insensitive literal: some run of
non-line-terminator characters, then the literal. -/
def dotStarThen (pat : List Char) : List Char → Bool
  | [] => pat.isEmpty
  | c :: cs =>
    (matchLitCI pat (c :: cs)).isSome || (!(c = '\n' || c = '\r') && dotStarThen pat cs)

/-- Does the position-anchored matcher succeed at some position of the
text?  Models RegExp.prototype.test of an unanchored pattern. -/
def searchOcc (m : List Char → Bool) : List Char → Bool
  | [] => m []
  | c :: cs => m (c :: cs) || searchOcc m cs

/-- Matcher for keyword, whitespace, keyword at the current position
(the shape of five of the six denylist patterns). -/
def kwSpKwAt (w1 w2 : List Char) (s : List Char) : Bool :=
  match matchLitCI w1 s with
  | none => false
  | some r1 =>
    match spacesPlus r1 with
    | none => false
    | some r2 => (matchLitCI w2 r2).isSome

/-- Matcher for `DELETE\s+FROM.*WHERE` at the current position. -/
def deleteFromWhereAt (s : List Char) : Bool :=
  match matchLitCI "delete".data s with
  | none => false
  | some r1 =>
    match spacesPlus r1 with
    | none => false
    | some r2 =>
      match matchLitCI "from".data r2 with
      | none => false
      | some r3 => dotStarThen "where".data r3

/-- The six denylist tests paired with the message text the source
interpolates (the string form of each regex literal). -/
def dangerousPatterns : List ((String → Bool) × String) :=
  [ (fun sql => searchOcc (kwSpKwAt "drop".data "table".data) sql.data,
      "/DROP\\s+TABLE/i"),
    (fun sql => searchOcc (kwSpKwAt "drop".data "database".data) sql.data,
      "/DROP\\s+DATABASE/i"),
    (fun sql => searchOcc deleteFromWhereAt sql.data,
      "/DELETE\\s+FROM.*WHERE/i"),
    (fun sql => searchOcc (fun s => (matchLitCI "truncate".data s).isSome) sql.data,
      "/TRUNCATE/i"),
    (fun sql => searchOcc (kwSpKwAt "alter".data "table".data) sql.data,
      "/ALTER\\s+TABLE/i"),
    (fun sql => searchOcc (kwSpKwAt "create".data "table".data) sql.data,
      "/CREATE\\s+TABLE/i") ]

/-- Test of `/^\s*SELECT/i`: optional leading whitespace then SELECT. -/
def startsWithSelect (sql : String) : Bool :=
  (matchLitCI "select".data (sql.data.dropWhile isSpaceJS)).isSome

/-- One alternation branch of the extraction regex: keyword, then
whitespace, then a captured word. -/
def branchCapture (kw : List Char) (s : List Char) : Option (List Char × List Char) :=
  (matchLitCI kw s).bind fun r1 => (spacesPlus r1).bind fun r2 => wordPlus r2

/-- Try the FROM branch, then the JOIN branch, at the current position. -/
def fromJoinAt (s : List Char) : Option (List Char × List Char) :=
  match branchCapture "from".data s with
  | some r => some r
  | none => branchCapture "join".data s

/-- Global scan of `/FROM\s+(\w+)|JOIN\s+(\w+)/gi`: find the leftmost
match, record the captured word, continue after the match.  Every scan
step consumes at least one character, so fuel equal to the text length
suffices and the fueled recursion is exact. -/
def scanTablesFuel : Nat → List Char → List String
  | 0, _ => []
  | _ + 1, [] => []
  | fuel + 1, c :: cs =>
    match fromJoinAt (c :: cs) with
    | some (w, rest) => String.mk w :: scanTablesFuel fuel rest
    | none => scanTablesFuel fuel cs

/-- All table identifiers extracted after FROM or JOIN keywords. -/
def extractTables (sql : String) : List String :=
  scanTablesFuel sql.data.length sql.data

/-- Table description inside a schema snapshot (the guard reads only the
name). -/
structure TableDef where
  name : String
deriving DecidableEq, Repr

/-- Schema snapshot as the introspector builds it and the guard
consumes it. -/
structure Schema where
  database : String := ""
  dialect : String := ""
  tables : List TableDef := []
deriving DecidableEq, Repr

/-- Validation result, uniformly used by the guard. -/
structure Validation where
  valid : Bool
  warnings : List String
  errors : List String
deriving DecidableEq, Repr

/-- One iteration of the forEach over the denylist: when the pattern
matches, clear valid and push the error message. -/
def dangerStep (sqlQuery : String) (v : Validation)
    (pr : (String → Bool) × String) : Validation :=
  if pr.1 sqlQuery then
    { v with valid := false,
             errors := v.errors ++ ["Dangerous operation detected: " ++ pr.2] }
  else v

/-- One iteration of the forEach over the extracted tables: when the
identifier is not a schema table name, push the warning. -/
def warnStep (schemaTableNames : List String) (v : Validation)
    (table : String) : Validation :=
  if !(schemaTableNames.contains table) then
    { v with warnings := v.warnings ++ ["Table \"" ++ table ++ "\" not found in schema"] }
  else v

/-- Embedding of validateQuery: start valid with no errors or warnings,
run the denylist checks, the leading-SELECT check, then the
unknown-table warnings. -/
def validateQuery (sqlQuery : String) (schema : Schema) : Validation :=
  let v0 : Validation := { valid := true, warnings := [], errors := [] }
  let v1 := dangerousPatterns.foldl (dangerStep sqlQuery) v0
  let v2 :=
    if !(startsWithSelect sqlQuery) then
      { v1 with valid := false, errors := v1.errors ++ ["Only SELECT queries are allowed"] }
    else v1
  let schemaTableNames := schema.tables.map (fun t => t.name)
  (extractTables sqlQuery).foldl (warnStep schemaTableNames) v2

/-- Does some denylist pattern match the statement? -/
def anyDangerous (sqlQuery : String) : Bool :=
  dangerousPatterns.any (fun pr => pr.1 sqlQuery)

/-! ## Schema Cache (utils/databaseSchema.js, getCachedSchema)

The module-level mutable pair (schemaCache, schemaCacheTime) is modelled
as an explicit state; the introspection result of this call
(getCompleteSchema) is a parameter `fresh`, and the returned flag
records whether the introspector was invoked.  The source's cached-path
condition is `!forceRefresh && schemaCache && schemaCacheTime &&
(now - schemaCacheTime) < CACHE_DURATION`: the stored timestamp is a
number, so JavaScript truthiness additionally requires it to be
non-zero. -/

/-- The mutable cache slot pair. -/
structure CacheState where
  schemaCache : Option Schema
  schemaCacheTime : Option Nat
deriving DecidableEq, Repr

/-- One hour in milliseconds. -/
def CACHE_DURATION : Nat := 60 * 60 * 1000

/-- Result of a getCachedSchema call: the returned snapshot, the state
after the call, and whether introspection ran. -/
structure CacheResult where
  schema : Schema
  state : CacheState
  introspected : Bool
deriving DecidableEq, Repr

/-- Embedding of getCachedSchema. -/
def getCachedSchema (fresh : Schema) (now : Nat) (forceRefresh : Bool)
    (st : CacheState) : CacheResult :=
  match st.schemaCache, st.schemaCacheTime with
  | some s, some t =>
    if forceRefresh = false ∧ t ≠ 0 ∧ now - t < CACHE_DURATION then
      { schema := s, state := st, introspected := false }
    else
      { schema := fresh, state := { schemaCache := some fresh, schemaCacheTime := some now },
        introspected := true }
  | _, _ =>
    { schema := fresh, state := { schemaCache := some fresh, schemaCacheTime := some now },
      introspected := true }

/-! ## AI-reply structural validation (services/aiService.js,
validateAIResponse)

The parsed JSON reply is modelled with Option fields; the source's
`!response[field]` checks test JavaScript truthiness, so a present but
empty string is treated like a missing field. -/

/-- Parsed AI reply: the three top-level fields the validator reads. -/
structure AIReply where
  sqlQuery : Option String := none
  vegaSpec : Option VegaSpec := none
  analysis : Option Unit := none
deriving DecidableEq, Repr

/-- Truthiness of an optional string: present and non-empty. -/
def strTruthy : Option String → Bool
  | none => false
  | some s => !(s = "")

/-- Truthiness of `response.vegaSpec.encoding`. -/
def encodingPresent : Option VegaSpec → Bool
  | none => false
  | some v => v.encoding.isSome

/-- Truthiness of `response.vegaSpec.$schema`. -/
def schemaFieldTruthy : Option VegaSpec → Bool
  | none => false
  | some v => strTruthy v.schemaUrl

/-- Embedding of validateAIResponse: the field loop in source order
(sqlQuery, vegaSpec, analysis), then the encoding and $schema checks;
the thrown Error is modelled as the error branch of Except. -/
def validateAIResponse (r : AIReply) : Except String Unit :=
  if !(strTruthy r.sqlQuery) then
    Except.error "AI response missing required field: SQL query (sqlQuery)"
  else if r.vegaSpec.isNone then
    Except.error "AI response missing required field: Vega-Lite specification (vegaSpec)"
  else if r.analysis.isNone then
    Except.error "AI response missing required field: Analysis metadata (analysis)"
  else if !(encodingPresent r.vegaSpec) then
    Except.error "Vega-Lite specification missing encoding field"
  else if !(schemaFieldTruthy r.vegaSpec) then
    Except.error "Vega-Lite specification missing $schema field"
  else Except.ok ()

/-! ## Description heuristics (utils/databaseSchema.js,
inferTableDescription and inferColumnDescription) -/

/-- The fixed table-name description dictionary. -/
def tableDescriptions : List (String × String) :=
  [ ("users", "User accounts and profile information"),
    ("customers", "Customer information and contact details"),
    ("sales", "Sales transactions and order records"),
    ("orders", "Customer orders and purchase history"),
    ("products", "Product catalog and inventory"),
    ("items", "Product items and SKUs"),
    ("inventory", "Stock levels and warehouse data"),
    ("employees", "Employee records and HR information"),
    ("payments", "Payment transactions and billing records"),
    ("invoices", "Invoice records and billing details"),
    ("categories", "Product or content categories"),
    ("reviews", "Customer reviews and ratings"),
    ("comments", "User comments and feedback"),
    ("posts", "Blog posts or content entries"),
    ("articles", "Article content and metadata") ]

/-- Strip the leading `tbl_`/`tb_` and the trailing `_table`/`s`
affixes, as the source's two anchored replace calls do (each replaces at
most one occurrence; `_table` ends in a letter other than s, so the two
suffix alternatives never overlap). -/
def stripTableAffixes (tableName : String) : String :=
  let afterPre :=
    if strStartsWith tableName "tbl_" then String.mk (tableName.data.drop 4)
    else if strStartsWith tableName "tb_" then String.mk (tableName.data.drop 3)
    else tableName
  if strEndsWith afterPre "_table" then
    String.mk (afterPre.data.take (afterPre.data.length - 6))
  else if strEndsWith afterPre "s" then
    String.mk (afterPre.data.take (afterPre.data.length - 1))
  else afterPre

/-- Capitalize the first character, as `charAt(0).toUpperCase() +
slice(1)` does. -/
def capitalizeFirst (s : String) : String :=
  match s.data with
  | [] => ""
  | c :: cs => String.mk (c.toUpper :: cs)

/-- Embedding of inferTableDescription: dictionary lookup of the cleaned
name, then of the raw name, then the capitalized-name fallback. -/
def inferTableDescription (tableName : String) : String :=
  let cleanName := stripTableAffixes tableName
  match assocLookup tableDescriptions cleanName with
  | some d => d
  | none =>
    match assocLookup tableDescriptions tableName with
    | some d => d
    | none => capitalizeFirst tableName ++ " data"

/-- The ordered column-name pattern dictionary of
inferColumnDescription. -/
def columnPatterns : List (String × String) :=
  [ ("id", "Unique identifier"),
    ("_id", "Foreign key reference"),
    ("name", "Name field"),
    ("email", "Email address"),
    ("phone", "Phone number"),
    ("address", "Physical address"),
    ("city", "City name"),
    ("state", "State or province"),
    ("country", "Country name"),
    ("zip", "Postal code"),
    ("postal_code", "Postal code"),
    ("date", "Date value"),
    ("created_at", "Record creation timestamp"),
    ("updated_at", "Last update timestamp"),
    ("deleted_at", "Soft delete timestamp"),
    ("price", "Price amount"),
    ("cost", "Cost amount"),
    ("amount", "Monetary amount"),
    ("quantity", "Quantity value"),
    ("status", "Status indicator"),
    ("type", "Type or category"),
    ("description", "Descriptive text"),
    ("notes", "Additional notes"),
    ("is_", "Boolean flag"),
    ("has_", "Boolean indicator") ]

/-- First dictionary entry whose pattern the name equals or ends with. -/
def patternScan (n : String) : List (String × String) → Option String
  | [] => none
  | (p, d) :: rest =>
    if n = p || strEndsWith n p then some d else patternScan n rest

/-- Replace every underscore by a space, as `replace(/_/g, ' ')` does. -/
def underscoresToSpaces (s : String) : String :=
  ⟨s.data.map (fun c => if c = '_' then ' ' else c)⟩

/-- Strip a leading `is_` or `has_`, as `replace(/^(is_|has_)/, '')`
does. -/
def stripBoolPre (s : String) : String :=
  if strStartsWith s "is_" then String.mk (s.data.drop 3)
  else if strStartsWith s "has_" then String.mk (s.data.drop 4)
  else s

/-- Embedding of inferColumnDescription: the exact/suffix dictionary
scan, then the foreign-key, boolean-prefix, and data-type fallbacks,
finally the underscores-to-spaces fallback. -/
def inferColumnDescription (columnName dataType : String) : String :=
  match patternScan columnName columnPatterns with
  | some d => d
  | none =>
    if jsIncludes columnName "_id" || strEndsWith columnName "_id" then
      "Foreign key to " ++ jsReplaceFirst columnName "_id" "" ++ " table"
    else if strStartsWith columnName "is_" || strStartsWith columnName "has_" then
      "Boolean: " ++ underscoresToSpaces (stripBoolPre columnName)
    else if dataType = "TIMESTAMP" || dataType = "DATE" then
      "Date/time: " ++ underscoresToSpaces columnName
    else if dataType = "BOOLEAN" then
      "Boolean flag: " ++ underscoresToSpaces columnName
    else underscoresToSpaces columnName

/-- Is the column description already decided by the name-keyed branches
(dictionary scan, foreign-key suffix, boolean prefix), before any
data-type branch is reached? -/
def columnNameMatched (n : String) : Bool :=
  (patternScan n columnPatterns).isSome || jsIncludes n "_id" ||
    strEndsWith n "_id" || strStartsWith n "is_" || strStartsWith n "has_"

/-! ## Concrete fixtures used by witnesses and counterexamples -/

/-- A five-row driver result, for the truncation witness. -/
def rowsFive : List Row :=
  [ [("i", JSValue.vnum 0)], [("i", JSValue.vnum 1)], [("i", JSValue.vnum 2)],
    [("i", JSValue.vnum 3)], [("i", JSValue.vnum 4)] ]

/-- A concrete stand-in for Number(): parses exactly the string 12. -/
def parseEx : String → Option Int := fun s => if s = "12" then some 12 else none

/-- A typical AI-produced bar spec. -/
def aiSpecBar : VegaSpec :=
  { schemaUrl := some "https://vega.github.io/schema/vega-lite/v5.json"
    mark := some (MarkVal.mstr "bar")
    data := some ⟨[]⟩
    encoding := some () }

/-- One result row of a category/total query. -/
def row1 : Row := [("category", JSValue.vstr "a"), ("total", JSValue.vnum 5)]

/-- A 1500-row result set, the spec's large-dataset example. -/
def rows1500 : List Row := List.replicate 1500 row1

/-- Input spec for the round-trip counterexample: a bare string mark. -/
def c7input : VegaSpec := { mark := some (MarkVal.mstr "bar") }

/-- Cached schema snapshot fixture. -/
def schemaEx : Schema :=
  { database := "db", dialect := "postgres", tables := [⟨"sales"⟩] }

/-- A fresh introspection result, distinct from the cached snapshot. -/
def schemaFresh : Schema :=
  { database := "db", dialect := "postgres", tables := [⟨"sales"⟩, ⟨"users"⟩] }

/-- Cache state holding `schemaEx` stored at time 1000. -/
def cacheStEx : CacheState :=
  { schemaCache := some schemaEx, schemaCacheTime := some 1000 }

/-- AI reply whose fields are all present but whose sqlQuery is the
empty string. -/
def c9reply : AIReply :=
  { sqlQuery := some ""
    vegaSpec := some { encoding := some (),
                       schemaUrl := some "https://vega.github.io/schema/vega-lite/v5.json" }
    analysis := some () }

/-- A structurally complete AI reply. -/
def goodReply : AIReply :=
  { sqlQuery := some "SELECT 1"
    vegaSpec := some { encoding := some (),
                       schemaUrl := some "https://vega.github.io/schema/vega-lite/v5.json" }
    analysis := some () }

/-! ## Helper lemmas -/

/-- A successful association-list lookup returns a stored value. -/
theorem assocLookup_mem {l : List (String × String)} {key v : String}
    (h : assocLookup l key = some v) : ∃ k, (k, v) ∈ l := by
  induction l with
  | nil => simp [assocLookup] at h
  | cons kv rest ih =>
    obtain ⟨k0, v0⟩ := kv
    by_cases hk : key = k0
    · refine ⟨k0, ?_⟩
      simp [assocLookup, hk] at h
      simp [h]
    · simp [assocLookup, hk] at h
      obtain ⟨k, hm⟩ := ih h
      exact ⟨k, by simp [hm]⟩

/-- Every value stored in the type lookup table is non-empty. -/
theorem typeMap_values_nonempty : ∀ kv ∈ typeMap, kv.2 ≠ "" := by decide

/-- Upper-casing a non-empty string yields a non-empty string. -/
theorem jsToUpperCase_nonempty {s : String} (h : s ≠ "") : jsToUpperCase s ≠ "" := by
  intro hEq
  apply h
  have hd : s.data.map Char.toUpper = [] := congrArg String.data hEq
  have : s.data = [] := List.map_eq_nil_iff.mp hd
  cases s
  simp_all

/-! ## C3 — type normalization totality -/

/-- Claim C3 as stated is false at the empty raw type string: the code
returns the upper-cased input, which is empty. -/
theorem normalizeDataType_empty_cex : normalizeDataType "" = "" := by decide

/-- C3 (amended): normalizeDataType is total and never throws: it
returns the table value keyed by the lower-cased input when one exists
and the upper-cased input otherwise, and the result is non-empty
whenever the input is non-empty (the unamended non-emptiness fails only
at the empty input string). -/
theorem normalizeDataType_total (s : String) :
    normalizeDataType s =
      (assocLookup typeMap (jsToLowerCase s)).getD (jsToUpperCase s) ∧
    (s ≠ "" → normalizeDataType s ≠ "") := by
  constructor
  · unfold normalizeDataType
    cases assocLookup typeMap (jsToLowerCase s) <;> rfl
  · intro hs
    unfold normalizeDataType
    cases h : assocLookup typeMap (jsToLowerCase s) with
    | some v =>
      obtain ⟨k, hk⟩ := assocLookup_mem h
      exact typeMap_values_nonempty (k, v) hk
    | none => exact jsToUpperCase_nonempty hs

/-- Witness for C3's amended theorem at the raw types varchar and uuid. -/
theorem normalizeDataType_total_witness :
    normalizeDataType "varchar" = "STRING" ∧ normalizeDataType "uuid" = "UUID" ∧
    normalizeDataType "uuid" ≠ "" := by
  refine ⟨?_, ?_, (normalizeDataType_total "uuid").2 (by decide)⟩
  · rw [(normalizeDataType_total "varchar").1]; decide
  · rw [(normalizeDataType_total "uuid").1]; decide

/-! ## C4 — row truncation -/

/-- C4: executeQuery never fails on result-set size; its output is a
prefix of the driver rows (original order), equal to the first maxRows
rows when the driver returned more than maxRows, and to the whole result
otherwise. -/
theorem executeQuery_truncates (results : List Row) (maxRows : Nat) :
    executeQuery results maxRows <+: results ∧
    (results.length > maxRows →
      executeQuery results maxRows = results.take maxRows ∧
      (executeQuery results maxRows).length = maxRows) ∧
    (results.length ≤ maxRows → executeQuery results maxRows = results) := by
  unfold executeQuery
  by_cases h : results.length > maxRows
  · refine ⟨by simp [h, List.take_prefix], fun _ => ⟨by simp [h], ?_⟩, fun hle => absurd h (by omega)⟩
    simp [h, List.length_take]
    omega
  · simp [h]

/-- Witness for C4 at a five-row result with bounds 3 and 5. -/
theorem executeQuery_truncates_witness :
    executeQuery rowsFive 3 = rowsFive.take 3 ∧
    (executeQuery rowsFive 3).length = 3 ∧
    executeQuery rowsFive 5 = rowsFive :=
  ⟨((executeQuery_truncates rowsFive 3).2.1 (by decide)).1,
   ((executeQuery_truncates rowsFive 3).2.1 (by decide)).2,
   (executeQuery_truncates rowsFive 5).2.2 (by decide)⟩

/-! ## C5 — numeric string coercion -/

/-- C5: for every row the executor returns and every column holding a
string whose trimmed form is non-empty and which the numeric parse
accepts, the pipeline's normalization (applied to the executor output by
generateChartFromPrompt) carries the coerced native number. -/
theorem executeQuery_numericCoercion
    (numParse : String → Option Int) (driverRows : List Row) (maxRows : Nat)
    (r : Row) (k s : String) (n : Int)
    (hr : r ∈ executeQuery driverRows maxRows)
    (hv : (k, JSValue.vstr s) ∈ r)
    (ht : jsTrim s ≠ "")
    (hp : numParse s = some n) :
    (k, JSValue.vnum n) ∈ normalizeRow numParse r ∧
    normalizeRow numParse r ∈ normalizeRows numParse (executeQuery driverRows maxRows) := by
  constructor
  · have hc : coerceValue numParse (JSValue.vstr s) = JSValue.vnum n := by
      simp [coerceValue, ht, hp]
    have hm := List.mem_map_of_mem (fun kv => (kv.1, coerceValue numParse kv.2)) hv
    simpa [normalizeRow, hc] using hm
  · exact List.mem_map_of_mem _ hr

/-- Witness for C5 at a one-row result holding the string 12. -/
theorem executeQuery_numericCoercion_witness :
    (("v", JSValue.vnum 12) ∈ normalizeRow parseEx [("v", JSValue.vstr "12")]) ∧
    normalizeRow parseEx [("v", JSValue.vstr "12")] ∈
      normalizeRows parseEx (executeQuery [[("v", JSValue.vstr "12")]] 10) :=
  executeQuery_numericCoercion parseEx [[("v", JSValue.vstr "12")]] 10
    [("v", JSValue.vstr "12")] "v" "12" 12 (by decide) (by decide) (by decide) (by decide)

/-! ## C2 — zero-row placeholder -/

/-- C2: when the guarded query returns zero rows the pipeline stays on
the success path and the returned spec is the fixed placeholder — text
mark, empty data values — whatever the AI-supplied spec's mark was. -/
theorem generateChartFromPrompt_emptyResult
    (numParse : String → Option Int) (aiSpec : VegaSpec) (driverRows : List Row)
    (maxRows : Nat) (chartOptions : ChartOptions)
    (h : (executeQuery driverRows maxRows).length = 0) :
    (generateChartFromPrompt numParse aiSpec driverRows maxRows chartOptions).success = true ∧
    (generateChartFromPrompt numParse aiSpec driverRows maxRows chartOptions).vegaSpec =
      emptyResultSpec ∧
    emptyResultSpec.mark = some (MarkVal.mstr "text") ∧
    emptyResultSpec.data = some ⟨[]⟩ := by
  refine ⟨?_, ?_, by decide, by decide⟩ <;> simp [generateChartFromPrompt, h]

/-- Witness for C2: an empty driver result with a bar input spec. -/
theorem generateChartFromPrompt_emptyResult_witness :
    (generateChartFromPrompt parseEx aiSpecBar [] 10000 {}).success = true ∧
    (generateChartFromPrompt parseEx aiSpecBar [] 10000 {}).vegaSpec = emptyResultSpec :=
  ⟨(generateChartFromPrompt_emptyResult parseEx aiSpecBar [] 10000 {} (by decide)).1,
   (generateChartFromPrompt_emptyResult parseEx aiSpecBar [] 10000 {} (by decide)).2.1⟩

/-! ## C6 — large-dataset degradation is never applied by the pipeline

The controller never calls optimizeVegaSpec: for the spec's own 1500-row
example the response spec keeps tooltip true and gains no sampling
transform, while the unused optimizeVegaSpec function would have
produced exactly the claimed modifications. -/

set_option maxRecDepth 40000 in
/-- C6 (code bug): at 1500 rows the pipeline's enhanced spec still has
tooltip true on its mark and no transform at all, although the dead
optimizeVegaSpec helper applied to that very spec would disable the
tooltip and append the sample-1000 transform. -/
theorem generateChartFromPrompt_no_largeData_optimization :
    (generateChartFromPrompt parseEx aiSpecBar rows1500 10000 {}).dataCount = 1500 ∧
    (generateChartFromPrompt parseEx aiSpecBar rows1500 10000 {}).vegaSpec.mark =
      some (MarkVal.mobj "bar" (some true)) ∧
    (generateChartFromPrompt parseEx aiSpecBar rows1500 10000 {}).vegaSpec.transform = none ∧
    (optimizeVegaSpec (generateChartFromPrompt parseEx aiSpecBar rows1500 10000 {}).vegaSpec
        1500).mark = some (MarkVal.mobj "bar" (some false)) ∧
    (optimizeVegaSpec (generateChartFromPrompt parseEx aiSpecBar rows1500 10000 {}).vegaSpec
        1500).transform = some [TransformEntry.sample 1000] := by
  refine ⟨?_, ?_, ?_, ?_, ?_⟩ <;> decide

/-! ## C7 — composer round-trip -/

/-- C7 as stated is false: with the default options the composer
rewrites even a shorthand string mark into object form carrying tooltip
true, so stripping the injected data and the size and theme defaults
back out does not recover the input spec. -/
theorem enhanceVegaSpec_roundTrip_cex :
    ¬ ({ enhanceVegaSpec c7input [] {} with
          data := c7input.data, width := c7input.width, autosize := c7input.autosize,
          height := c7input.height, config := c7input.config } = c7input) := by
  decide

/-- C7 (amended): the composer is pure, and with the tooltip option
disabled the round trip is exact — restoring the data slot and the
size and theme fields (width, autosize, height, config) recovers the
input spec verbatim, for every input, every row set, every theme and
either responsive mode; with the default tooltip option the mark is
additionally normalized to object form with tooltip true. -/
theorem enhanceVegaSpec_roundTrip (spec : VegaSpec) (rows : List Row)
    (theme : String) (responsive : Bool) :
    { enhanceVegaSpec spec rows { theme := theme, responsive := responsive, tooltip := false } with
      data := spec.data, width := spec.width, autosize := spec.autosize,
      height := spec.height, config := spec.config } = spec := by
  obtain ⟨su, mk, da, en, wi, au, he, co, tr, ti⟩ := spec
  simp only [enhanceVegaSpec, Bool.false_and, if_neg]
  by_cases hr : responsive <;>
    by_cases hw : widthTruthy wi <;>
      by_cases hh : heightTruthy he <;>
        by_cases hth : theme = "default" <;>
          simp [hr, hw, hh, hth]

/-! ## C1 — SQL Guard characterization -/

/-- Effect of the denylist forEach: valid is cleared exactly when some
pattern matches, warnings are untouched, and one error per matching
pattern is appended in order. -/
theorem dangerFold (sqlQuery : String) (ps : List ((String → Bool) × String))
    (v : Validation) :
    (ps.foldl (dangerStep sqlQuery) v).valid =
      (v.valid && !(ps.any (fun pr => pr.1 sqlQuery))) ∧
    (ps.foldl (dangerStep sqlQuery) v).warnings = v.warnings ∧
    (ps.foldl (dangerStep sqlQuery) v).errors =
      v.errors ++ (ps.filter (fun pr => pr.1 sqlQuery)).map
        (fun pr => "Dangerous operation detected: " ++ pr.2) := by
  induction ps generalizing v with
  | nil => simp
  | cons p rest ih =>
    obtain ⟨h1, h2, h3⟩ := ih (dangerStep sqlQuery v p)
    by_cases hp : p.1 sqlQuery
    · refine ⟨?_, ?_, ?_⟩
      · rw [List.foldl_cons, h1]; simp [dangerStep, hp]
      · rw [List.foldl_cons, h2]; simp [dangerStep, hp]
      · rw [List.foldl_cons, h3]; simp [dangerStep, hp, List.append_assoc]
    · refine ⟨?_, ?_, ?_⟩
      · rw [List.foldl_cons, h1]; simp [dangerStep, hp]
      · rw [List.foldl_cons, h2]; simp [dangerStep, hp]
      · rw [List.foldl_cons, h3]; simp [dangerStep, hp]

/-- Effect of the unknown-table forEach: valid and errors are untouched
and one warning per extracted identifier missing from the schema is
appended in order. -/
theorem warnFold (names : List String) (ts : List String) (v : Validation) :
    (ts.foldl (warnStep names) v).valid = v.valid ∧
    (ts.foldl (warnStep names) v).errors = v.errors ∧
    (ts.foldl (warnStep names) v).warnings =
      v.warnings ++ (ts.filter (fun t => !(names.contains t))).map
        (fun t => "Table \"" ++ t ++ "\" not found in schema") := by
  induction ts generalizing v with
  | nil => simp
  | cons t rest ih =>
    obtain ⟨h1, h2, h3⟩ := ih (warnStep names v t)
    by_cases hq : names.contains t
    · have hq2 : t ∈ names := by simpa using hq
      refine ⟨?_, ?_, ?_⟩
      · rw [List.foldl_cons, h1]; simp [warnStep, hq, hq2]
      · rw [List.foldl_cons, h2]; simp [warnStep, hq, hq2]
      · rw [List.foldl_cons, h3]; simp [warnStep, hq, hq2]
    · have hq2 : ¬(t ∈ names) := by simpa using hq
      refine ⟨?_, ?_, ?_⟩
      · rw [List.foldl_cons, h1]; simp [warnStep, hq, hq2]
      · rw [List.foldl_cons, h2]; simp [warnStep, hq, hq2]
      · rw [List.foldl_cons, h3]; simp [warnStep, hq, hq2, List.append_assoc]

/-- C1: validateQuery returns valid false — equivalently, a non-empty
error list — exactly when the statement does not begin with SELECT
after optional whitespace or some denylist pattern matches; and the
warnings are exactly one per identifier extracted after FROM or JOIN
that is not a schema table name, naming that table, independent of the
valid flag. -/
theorem validateQuery_spec (sql : String) (schema : Schema) :
    ((validateQuery sql schema).valid = false ↔
      (startsWithSelect sql = false ∨ anyDangerous sql = true)) ∧
    ((validateQuery sql schema).valid = false ↔
      (validateQuery sql schema).errors ≠ []) ∧
    (validateQuery sql schema).warnings =
      ((extractTables sql).filter
        (fun t => !((schema.tables.map (fun tb => tb.name)).contains t))).map
        (fun t => "Table \"" ++ t ++ "\" not found in schema") := by
  have hv0 := dangerFold sql dangerousPatterns
    { valid := true, warnings := [], errors := [] }
  unfold validateQuery anyDangerous
  by_cases hs : startsWithSelect sql <;>
    by_cases hd : dangerousPatterns.any (fun pr => pr.1 sql) <;>
      [skip; skip; skip; skip] <;>
  · have hw := warnFold (schema.tables.map (fun tb => tb.name)) (extractTables sql)
    rcases hv0 with ⟨h1, h2, h3⟩
    constructor
    · simp_all [List.any_eq_true, List.filter_eq_nil_iff]
    constructor
    · simp_all [List.any_eq_true, List.filter_eq_nil_iff]
    · simp_all

/-- Witness for C1: a denylisted statement is invalid, and a SELECT on
an unknown table stays valid with exactly one warning naming it. -/
theorem validateQuery_spec_witness :
    (validateQuery "DROP TABLE sales" { tables := [⟨"sales"⟩] }).valid = false ∧
    (validateQuery "SELECT * FROM ghost_table" { tables := [⟨"sales"⟩] }).valid ≠ false ∧
    (validateQuery "SELECT * FROM ghost_table" { tables := [⟨"sales"⟩] }).warnings =
      ["Table \"ghost_table\" not found in schema"] := by
  refine ⟨(validateQuery_spec "DROP TABLE sales" _).1.mpr (Or.inr (by decide)), ?_, ?_⟩
  · intro hfalse
    have := (validateQuery_spec "SELECT * FROM ghost_table" { tables := [⟨"sales"⟩] }).1.mp hfalse
    revert this
    decide
  · rw [(validateQuery_spec "SELECT * FROM ghost_table" { tables := [⟨"sales"⟩] }).2.2]
    decide

/-! ## C8 — schema cache -/

/-- C8: a get(false) call while the stored snapshot (stored at a real,
hence positive, clock time) is younger than the one-hour TTL returns
that same snapshot and leaves the state untouched without invoking the
introspector; a get(true) call always invokes the introspector, stores
its result with the current timestamp, and returns it. -/
theorem getCachedSchema_spec :
    (∀ (fresh : Schema) (now : Nat) (st : CacheState) (s : Schema) (t : Nat),
      st.schemaCache = some s → st.schemaCacheTime = some t → 0 < t →
      now - t < CACHE_DURATION →
      getCachedSchema fresh now false st =
        { schema := s, state := st, introspected := false }) ∧
    (∀ (fresh : Schema) (now : Nat) (st : CacheState),
      getCachedSchema fresh now true st =
        { schema := fresh,
          state := { schemaCache := some fresh, schemaCacheTime := some now },
          introspected := true }) := by
  constructor
  · intro fresh now st s t hc ht h0 hd
    obtain ⟨sc, sct⟩ := st
    simp only at hc ht
    subst hc ht
    simp [getCachedSchema, Nat.pos_iff_ne_zero.mp h0, hd]
  · intro fresh now st
    obtain ⟨sc, sct⟩ := st
    cases sc <;> cases sct <;> simp [getCachedSchema]

/-- Witness for C8: a snapshot stored at time 1000 read at time 2000. -/
theorem getCachedSchema_spec_witness :
    getCachedSchema schemaFresh 2000 false cacheStEx =
      { schema := schemaEx, state := cacheStEx, introspected := false } ∧
    getCachedSchema schemaFresh 2000 true cacheStEx =
      { schema := schemaFresh,
        state := { schemaCache := some schemaFresh, schemaCacheTime := some 2000 },
        introspected := true } :=
  ⟨getCachedSchema_spec.1 schemaFresh 2000 cacheStEx schemaEx 1000 rfl rfl
      (by decide) (by decide),
   getCachedSchema_spec.2 schemaFresh 2000 cacheStEx⟩

/-! ## C9 — AI-reply structural validation -/

/-- C9 as stated is false: this reply carries every required field —
sqlQuery, vegaSpec, analysis, encoding and the schema pin are all
present — yet validation fails, because the source tests truthiness
and the present sqlQuery is the empty string. -/
theorem validateAIResponse_claim_cex :
    c9reply.sqlQuery.isSome = true ∧ c9reply.vegaSpec.isSome = true ∧
    c9reply.analysis.isSome = true ∧ encodingPresent c9reply.vegaSpec = true ∧
    schemaFieldTruthy c9reply.vegaSpec = true ∧
    validateAIResponse c9reply =
      Except.error "AI response missing required field: SQL query (sqlQuery)" := by
  refine ⟨by decide, by decide, by decide, by decide, by decide, by rfl⟩

/-- C9 (amended): validation passes exactly when sqlQuery is present
and non-empty, vegaSpec and analysis are present, the chart spec has an
encoding, and its schema pin is present and non-empty; each failure is
reported with the error naming the first offending field in source
order. -/
theorem validateAIResponse_spec (r : AIReply) :
    ((validateAIResponse r = Except.ok ()) ↔
      (strTruthy r.sqlQuery = true ∧ r.vegaSpec.isSome = true ∧
        r.analysis.isSome = true ∧ encodingPresent r.vegaSpec = true ∧
        schemaFieldTruthy r.vegaSpec = true)) ∧
    (strTruthy r.sqlQuery = false →
      validateAIResponse r =
        Except.error "AI response missing required field: SQL query (sqlQuery)") ∧
    (strTruthy r.sqlQuery = true → r.vegaSpec.isSome = false →
      validateAIResponse r =
        Except.error "AI response missing required field: Vega-Lite specification (vegaSpec)") ∧
    (strTruthy r.sqlQuery = true → r.vegaSpec.isSome = true → r.analysis.isSome = false →
      validateAIResponse r =
        Except.error "AI response missing required field: Analysis metadata (analysis)") ∧
    (strTruthy r.sqlQuery = true → r.vegaSpec.isSome = true → r.analysis.isSome = true →
      encodingPresent r.vegaSpec = false →
      validateAIResponse r = Except.error "Vega-Lite specification missing encoding field") ∧
    (strTruthy r.sqlQuery = true → r.vegaSpec.isSome = true → r.analysis.isSome = true →
      encodingPresent r.vegaSpec = true → schemaFieldTruthy r.vegaSpec = false →
      validateAIResponse r = Except.error "Vega-Lite specification missing $schema field") := by
  by_cases h1 : strTruthy r.sqlQuery <;>
    by_cases h2 : r.vegaSpec.isSome <;>
      by_cases h3 : r.analysis.isSome <;>
        by_cases h4 : encodingPresent r.vegaSpec <;>
          by_cases h5 : schemaFieldTruthy r.vegaSpec <;>
            simp_all [validateAIResponse, Option.isNone_iff_eq_none,
              Option.isSome_iff_ne_none]

/-- Witness for C9's amended theorem at a structurally complete reply. -/
theorem validateAIResponse_spec_witness :
    validateAIResponse goodReply = Except.ok () :=
  (validateAIResponse_spec goodReply).1.mpr (by decide)

/-! ## C10 — description heuristic determinism -/

/-- C10 as stated is false: the column description of an unmatched name
depends on the accompanying data type. -/
theorem inferColumnDescription_cex :
    inferColumnDescription "foo" "TIMESTAMP" ≠ inferColumnDescription "foo" "STRING" := by
  decide

/-- C10 (amended): the heuristic is a pure function of its arguments;
the table description is a function of the table name alone, and the
column description is a function of the pair (name, normalized type)
that ignores the type whenever one of the name-keyed branches fires —
for unmatched names, the TIMESTAMP, DATE and BOOLEAN types alter the
fallback description. -/
theorem inferColumnDescription_nameDetermined (n t1 t2 : String)
    (h : columnNameMatched n = true) :
    inferColumnDescription n t1 = inferColumnDescription n t2 := by
  unfold inferColumnDescription
  unfold columnNameMatched at h
  cases hps : patternScan n columnPatterns with
  | some d => rfl
  | none =>
    rw [hps] at h
    simp only [Option.isSome_none, Bool.false_or] at h
    by_cases hfk : (jsIncludes n "_id" || strEndsWith n "_id")
    · simp [hfk]
    · simp only [Bool.or_eq_true] at h hfk
      push_neg at hfk
      rcases h with ((h | h) | h) | h
      · exact absurd h hfk.1
      · exact absurd h hfk.2
      · simp [hfk.1, hfk.2, h]
      · simp [hfk.1, hfk.2, h]

/-- Witness for C10's amended theorem at a dictionary-matched name. -/
theorem inferColumnDescription_nameDetermined_witness :
    inferColumnDescription "email" "INTEGER" = inferColumnDescription "email" "TEXT" :=
  inferColumnDescription_nameDetermined "email" "INTEGER" "TEXT" (by decide)

end VegaAutoViz
